import Mathlib

/-!
Verification of the per-message metrics delta engine of
`agentcli/core/trace_utils.py` (awslabs/agent-dev-toolkit).

The Python module is shallowly embedded below.  Conventions:

* Python `dict`s are insertion-ordered association lists (`Dict`); item
  assignment updates in place or appends, exactly like CPython.
* Python exceptions are modelled with `Except PyErr`; the wide
  `try/except` blocks of the two public entry points become explicit
  `match`es that collapse any internal error into the null result `none`.
* The process clock (`time.time()`) is an explicit integer parameter
  `now`; fractional-second timestamp arithmetic carries no claim content
  and is abstracted to integers.
* Agent objects are identified by the integer `pyId` (Python `id()`),
  duck-typed attribute presence by `Option` fields / string-keyed
  attribute dictionaries.
-/

namespace TraceUtils

/-- Python `dict` with string keys: an insertion-ordered association list. -/
abbrev Dict (α : Type) := List (String × α)

/-- Python `d.get(k)`. -/
def dget {α : Type} : Dict α → String → Option α
  | [], _ => none
  | (k', v) :: rest, k => if k' = k then some v else dget rest k

/-- Python `d.get(k, v0)`. -/
def dgetD {α : Type} (d : Dict α) (k : String) (v0 : α) : α := (dget d k).getD v0

/-- Python `d[k] = v`: update in place, or append when the key is new. -/
def dset {α : Type} : Dict α → String → α → Dict α
  | [], k, v => [(k, v)]
  | (k', v') :: rest, k, v =>
      if k' = k then (k, v) :: rest else (k', v') :: dset rest k v

/-- The Python exceptions the embedded code can raise. -/
inductive PyErr where
  | keyError (k : String)
deriving DecidableEq, Repr

/-- Python `d[k]` (subscript read): raises `KeyError` when the key is absent. -/
def mustGet {α : Type} (d : Dict α) (k : String) : Except PyErr α :=
  match dget d k with
  | some v => .ok v
  | none => .error (.keyError k)

/-- Python `d[k] += v` (source lines 98-102): raises `KeyError` when `k` is absent. -/
def dictAdd (d : Dict Int) (k : String) (v : Int) : Except PyErr (Dict Int) :=
  match dget d k with
  | some x => .ok (dset d k (x + v))
  | none => .error (.keyError k)

/-- Substring test on character lists (Python `pat in s` on strings):
`startsWithChars pat s` is true when `pat` is an initial segment of `s`. -/
def startsWithChars : List Char → List Char → Bool
  | [], _ => true
  | _ :: _, [] => false
  | p :: ps, c :: cs => (p == c) && startsWithChars ps cs

/-- Occurrence of `pat` at any position of `s`. -/
def hasSubAux (pat : List Char) : List Char → Bool
  | [] => startsWithChars pat []
  | c :: rest => startsWithChars pat (c :: rest) || hasSubAux pat rest

/-- Python `pat in s` for strings. -/
def containsSub (s pat : String) : Bool := hasSubAux pat.toList s.toList

/-- Python `s.strip()` restricted to ASCII whitespace. -/
def isSpaceChar (c : Char) : Bool := (c == ' ') || (c == '\t') || (c == '\n') || (c == '\r')

/-- Python `s.strip()`. -/
def pyStrip (s : String) : String :=
  String.mk (((s.toList.dropWhile isSpaceChar).reverse.dropWhile isSpaceChar).reverse)

/-- Normalise one bound of a Python slice `l[i:j]` to an index into `l`. -/
def pyIdx (n : Nat) (i : Int) : Nat :=
  if i < 0 then ((n : Int) + i).toNat else min i.toNat n

/-- Python list slicing `l[i:j]` (step 1): total, never raises. -/
def pySlice {α : Type} (l : List α) (i j : Int) : List α :=
  let a := pyIdx l.length i
  let b := pyIdx l.length j
  (l.drop a).take (b - a)

/-- A content block of a trace message (`'text' in item`, `'toolUse' in item`,
`'toolResult' in item`, or an unrecognised item, checked in that order by the
source). `toolUse` carries the optional `toolUseId`/`name`/`input` entries of
the inner dict; `toolResult` carries its `content` list. -/
inductive ContentBlock where
  | text (s : String)
  | toolUse (toolUseId : Option String) (name : Option String) (input : Option (Dict String))
  | toolResult (content : List ContentBlock)
  | other

/-- A trace message: `{'role': ..., 'content': [...]}`. -/
structure Message where
  role : String
  content : List ContentBlock

/-- A trace node.  Only the fields the source reads are modelled:
`id`, `name`, `message`, `children`, `metadata['toolUseId']`,
`start_time`, `end_time`, `duration` (timestamps abstracted to integers). -/
inductive TraceNode where
  | node (id : Option String) (name : Option String) (message : Option Message)
      (children : List TraceNode) (metadataToolUseId : Option String)
      (start_time : Option Int) (end_time : Option Int) (duration : Option Int)

def TraceNode.id : TraceNode → Option String
  | .node i _ _ _ _ _ _ _ => i

def TraceNode.name : TraceNode → Option String
  | .node _ n _ _ _ _ _ _ => n

def TraceNode.message : TraceNode → Option Message
  | .node _ _ m _ _ _ _ _ => m

def TraceNode.children : TraceNode → List TraceNode
  | .node _ _ _ cs _ _ _ _ => cs

def TraceNode.metadataToolUseId : TraceNode → Option String
  | .node _ _ _ _ t _ _ _ => t

def TraceNode.start_time : TraceNode → Option Int
  | .node _ _ _ _ _ s _ _ => s

def TraceNode.end_time : TraceNode → Option Int
  | .node _ _ _ _ _ _ e _ => e

def TraceNode.duration : TraceNode → Option Int
  | .node _ _ _ _ _ _ _ d => d

/-- The cumulative summary returned by `agent_response.metrics.get_summary()`.
`accumulated_usage` and `accumulated_metrics` are kept as raw dictionaries so
that missing keys are representable. -/
structure Summary where
  accumulated_usage : Dict Int
  total_cycles : Int
  accumulated_metrics : Dict Int
  traces : List TraceNode
  tool_usage : Dict String

/-- The snapshot dict written at source lines 89-95; all five keys are always
written, so a structure is faithful. -/
structure Snapshot where
  inputTokens : Int
  outputTokens : Int
  totalTokens : Int
  cycles : Int
  latencyMs : Int
deriving DecidableEq, Repr

/-- Lookup in the `id(agent)`-keyed snapshot table. -/
def snapGet : List (Nat × Snapshot) → Nat → Option Snapshot
  | [], _ => none
  | (k', v) :: rest, k => if k' = k then some v else snapGet rest k

/-- Store into the `id(agent)`-keyed snapshot table. -/
def snapSet : List (Nat × Snapshot) → Nat → Snapshot → List (Nat × Snapshot)
  | [], k, v => [(k, v)]
  | (k', v') :: rest, k, v =>
      if k' = k then (k, v) :: rest else (k', v') :: snapSet rest k v

/-- The module-level mutable state: `_agent_snapshots` and `_session_totals`. -/
structure EngineState where
  agent_snapshots : List (Nat × Snapshot)
  session_totals : Dict Int

/-- The module state as initialised at import time (source lines 9-18). -/
def initialState : EngineState :=
  { agent_snapshots := []
    session_totals :=
      [("inputTokens", 0), ("outputTokens", 0), ("totalTokens", 0),
       ("cycles", 0), ("latencyMs", 0)] }

/-- `reset_metrics_state` (source lines 320-325): `dict.clear()` on both
globals, leaving `_session_totals` with no keys at all. -/
def reset_metrics_state (_st : EngineState) : EngineState :=
  { agent_snapshots := [], session_totals := [] }

/-- A bound model object: its instance attributes and its class name. -/
structure ModelObj where
  attrs : Dict String
  className : String

/-- An agent object: Python identity, optional bound model, optional name
attribute, and class name. -/
structure Agent where
  pyId : Nat
  model : Option ModelObj
  name : Option String
  className : String

/-- A turn result: the optional metrics attachment (`hasattr(resp, 'metrics')`)
and the printable response text (`str(agent_response)`). -/
structure AgentResponse where
  metrics : Option Summary
  text : String

/-- One reconstructed tool call (the dict appended at source lines 151-156). -/
structure ToolCallData where
  id : String
  name : String
  parameters : Dict String
  result : String

/-- The dict returned by `calculate_per_message_metrics` (source lines 163-172). -/
structure PerMessageData where
  token_delta : Dict Int
  new_cycles : Int
  latency_ms : Int
  message_contents : List String
  tool_calls : List ToolCallData
  tool_usage : Dict String
  new_traces : List TraceNode
  metrics_summary : Summary

/-- First `text` / `toolUse` / `toolResult` discrimination used below. -/
def textOf : ContentBlock → Option String
  | .text s => some s
  | _ => none

/-- One step of the innermost loop at source lines 146-148: every `text`
content item overwrites the accumulator. -/
def lastTextStep (a : String) (ci : ContentBlock) : String :=
  match ci with
  | .text t => t
  | _ => a

/-- One step of the loop at source lines 143-148 over the sibling message's
content: each `toolResult` block contributes via `lastTextStep`. -/
def toolResultFold (acc : String) (b : ContentBlock) : String :=
  match b with
  | .toolResult rc => rc.foldl lastTextStep acc
  | _ => acc

/-- Extraction of a result string from a matched sibling (source lines
142-148).  The Python truthiness guard on `content` is observationally
absorbed: an empty content list folds to `""`. -/
def resultTextOfSibling (c : TraceNode) : String :=
  match c.message with
  | some m => m.content.foldl toolResultFold ""
  | none => ""

/-- The sibling-match test of source line 140:
`'Tool:' in other_child.get('name', '')` and
`other_child.get('metadata', {}).get('toolUseId') == tool_id`. -/
def isToolMatch (c : TraceNode) (toolId : String) : Bool :=
  containsSub (c.name.getD "") "Tool:" && (c.metadataToolUseId == some toolId)

/-- The sibling scan of source lines 138-149 (in
`calculate_per_message_metrics`): the `break` fires on the first matching
sibling regardless of its message content. -/
def find_tool_result : List TraceNode → String → String
  | [], _ => ""
  | c :: rest, toolId =>
      if isToolMatch c toolId then resultTextOfSibling c
      else find_tool_result rest toolId

/-- The sibling scan of source lines 393-404 (in
`extract_direct_metrics_from_response`): there the `break` sits inside the
`if ... content:` truthiness test, so a matching sibling whose message is
absent or has an empty content list does NOT stop the scan. -/
def find_tool_result_direct : List TraceNode → String → String
  | [], _ => ""
  | c :: rest, toolId =>
      if isToolMatch c toolId then
        match c.message with
        | some m =>
            match m.content with
            | [] => find_tool_result_direct rest toolId
            | b :: bs => (b :: bs).foldl toolResultFold ""
        | none => find_tool_result_direct rest toolId
      else find_tool_result_direct rest toolId

/-- The assistant-step test of source line 125:
`child.get('name') == 'stream_messages'` and
`child.get('message', {}).get('role') == 'assistant'`. -/
def isAssistantChild (c : TraceNode) : Bool :=
  (c.name == some "stream_messages") && ((c.message.map Message.role) == some "assistant")

/-- One content item of an assistant message (source lines 127-156):
collect `text`, or build a tool-call record resolved against the siblings. -/
def extract_step (siblings : List TraceNode)
    (acc : List String × List ToolCallData) (item : ContentBlock) :
    List String × List ToolCallData :=
  match item with
  | .text s => (acc.1 ++ [s], acc.2)
  | .toolUse tid tname tinput =>
      let toolId := tid.getD ""
      (acc.1, acc.2 ++
        [{ id := toolId, name := tname.getD "unknown",
           parameters := tinput.getD [],
           result := find_tool_result siblings toolId }])
  | _ => acc

/-- One direct child of a trace node (source lines 123-156). -/
def extract_child (siblings : List TraceNode)
    (acc : List String × List ToolCallData) (c : TraceNode) :
    List String × List ToolCallData :=
  if isAssistantChild c then
    match c.message with
    | some m => m.content.foldl (extract_step siblings) acc
    | none => acc
  else acc

/-- The content-extraction loop of source lines 119-156. -/
def extract_contents_tools (newTraces : List TraceNode) :
    List String × List ToolCallData :=
  newTraces.foldl (fun acc t => t.children.foldl (extract_child t.children) acc) ([], [])

/-- Duplicate of `extract_step` in `extract_direct_metrics_from_response`
(source lines 382-411), using the direct sibling scan. -/
def extract_step_direct (siblings : List TraceNode)
    (acc : List String × List ToolCallData) (item : ContentBlock) :
    List String × List ToolCallData :=
  match item with
  | .text s => (acc.1 ++ [s], acc.2)
  | .toolUse tid tname tinput =>
      let toolId := tid.getD ""
      (acc.1, acc.2 ++
        [{ id := toolId, name := tname.getD "unknown",
           parameters := tinput.getD [],
           result := find_tool_result_direct siblings toolId }])
  | _ => acc

/-- Duplicate of `extract_child` for the direct entry point. -/
def extract_child_direct (siblings : List TraceNode)
    (acc : List String × List ToolCallData) (c : TraceNode) :
    List String × List ToolCallData :=
  if isAssistantChild c then
    match c.message with
    | some m => m.content.foldl (extract_step_direct siblings) acc
    | none => acc
  else acc

/-- The content-extraction loop of source lines 377-411. -/
def extract_contents_tools_direct (newTraces : List TraceNode) :
    List String × List ToolCallData :=
  newTraces.foldl (fun acc t => t.children.foldl (extract_child_direct t.children) acc) ([], [])

/-- The snapshot written back at source lines 89-95. -/
def snapshot_of (curr_usage : Dict Int) (curr_cycles curr_latency : Int) : Snapshot :=
  { inputTokens := dgetD curr_usage "inputTokens" 0
    outputTokens := dgetD curr_usage "outputTokens" 0
    totalTokens := dgetD curr_usage "totalTokens" 0
    cycles := curr_cycles
    latencyMs := curr_latency }

/-- The previous snapshot looked up for an observation (source lines 64-70):
`none` when no identity is supplied or the identity is unseen. -/
def prevSnapshotOf (agentObj : Option Agent) (st : EngineState) : Option Snapshot :=
  match agentObj with
  | none => none
  | some a => snapGet st.agent_snapshots a.pyId

/-- The state after the snapshot write-back of source lines 88-95. -/
def storedState (s : Summary) (a : Agent) (st : EngineState) : EngineState :=
  { st with
      agent_snapshots :=
        snapSet st.agent_snapshots a.pyId
          (snapshot_of s.accumulated_usage s.total_cycles
            (dgetD s.accumulated_metrics "latencyMs" 0)) }

/-- Result of the delta/bookkeeping phase (source lines 58-112). -/
structure DeltaResult where
  delta_usage : Dict Int
  delta_cycles : Int
  delta_latency : Int
  prev_cycles_index : Int
  st : EngineState

/-- Source lines 58-95 and 108-112: compute the deltas, write the snapshot
back when an identity is present, and fix the previous cycle index. -/
def compute_deltas (s : Summary) (agentObj : Option Agent) (st : EngineState) : DeltaResult :=
  let curr_usage := s.accumulated_usage
  let curr_cycles := s.total_cycles
  let curr_latency := dgetD s.accumulated_metrics "latencyMs" 0
  match agentObj with
  | none =>
      { delta_usage := curr_usage, delta_cycles := curr_cycles,
        delta_latency := curr_latency, prev_cycles_index := 0, st := st }
  | some a =>
      let stored : EngineState := storedState s a st
      match snapGet st.agent_snapshots a.pyId with
      | none =>
          { delta_usage := curr_usage, delta_cycles := curr_cycles,
            delta_latency := curr_latency, prev_cycles_index := 0, st := stored }
      | some prev =>
          { delta_usage :=
              [("inputTokens", max 0 (dgetD curr_usage "inputTokens" 0 - prev.inputTokens)),
               ("outputTokens", max 0 (dgetD curr_usage "outputTokens" 0 - prev.outputTokens)),
               ("totalTokens", max 0 (dgetD curr_usage "totalTokens" 0 - prev.totalTokens))]
            delta_cycles := max 0 (curr_cycles - prev.cycles)
            delta_latency := max 0 (curr_latency - prev.latencyMs)
            prev_cycles_index := prev.cycles
            st := stored }

/-- The five `+=` statements of source lines 98-102, threading partial
mutation: on a `KeyError` the successfully updated keys stay updated. -/
def addTotals : Dict Int → List (String × Int) → Except PyErr Unit × Dict Int
  | t, [] => (.ok (), t)
  | t, (k, v) :: rest =>
      match dictAdd t k v with
      | .ok t2 => addTotals t2 rest
      | .error e => (.error e, t)

/-- `calculate_per_message_metrics` (source lines 48-172). -/
def calculate_per_message_metrics (s : Summary) (agentObj : Option Agent)
    (st : EngineState) : Except PyErr PerMessageData × EngineState :=
  let dr := compute_deltas s agentObj st
  let rt := addTotals dr.st.session_totals
      [("inputTokens", dgetD dr.delta_usage "inputTokens" 0),
       ("outputTokens", dgetD dr.delta_usage "outputTokens" 0),
       ("totalTokens", dgetD dr.delta_usage "totalTokens" 0),
       ("cycles", dr.delta_cycles),
       ("latencyMs", dr.delta_latency)]
  let st2 : EngineState := { dr.st with session_totals := rt.2 }
  match rt.1 with
  | .error e => (.error e, st2)
  | .ok _ =>
      let all_traces := s.traces
      let new_traces :=
        if dr.prev_cycles_index < (all_traces.length : Int)
        then pySlice all_traces dr.prev_cycles_index s.total_cycles
        else []
      let mc_tc := extract_contents_tools new_traces
      (.ok { token_delta := dr.delta_usage, new_cycles := dr.delta_cycles,
             latency_ms := dr.delta_latency, message_contents := mc_tc.1,
             tool_calls := mc_tc.2, tool_usage := s.tool_usage,
             new_traces := new_traces, metrics_summary := s }, st2)

/-- The model-name fallback chain of source lines 189-212, for a present
model object.  The probe of `model_obj.__dict__['model_id']` (line 197)
coincides with the `model_id` attribute probe in this attribute model and is
kept as written. -/
def derive_model_from_obj (m : ModelObj) : String :=
  match dget m.attrs "model_id" with
  | some v => v
  | none =>
    match dget m.attrs "model" with
    | some v => v
    | none =>
      match dget m.attrs "model_name" with
      | some v => v
      | none =>
        match dget m.attrs "_model_id" with
        | some v => v
        | none =>
          match dget m.attrs "model_id" with
          | some v => v
          | none =>
            if containsSub m.className "Bedrock" then "BedrockModel"
            else if containsSub m.className "Anthropic" then "AnthropicModel"
            else if containsSub m.className "OpenAI" then "OpenAIModel"
            else m.className

/-- Source lines 181-215: the display model name, starting from the
hardcoded fallback. -/
def derive_actual_model (agent : Option Agent) : String :=
  match agent with
  | none => "us.anthropic.claude-3-7-sonnet-20250219-v1:0"
  | some a =>
      match a.model with
      | none => "us.anthropic.claude-3-7-sonnet-20250219-v1:0"
      | some m => derive_model_from_obj m

/-- Source lines 182, 216-219: the display agent name (`agent.name` is
subject to Python truthiness, so an empty name falls back to the class name). -/
def derive_agent_name (agent : Option Agent) : String :=
  match agent with
  | none => "Strands Agent"
  | some a =>
      match a.name with
      | some n => if n = "" then a.className else n
      | none => a.className

/-- `agent_attributes` (source lines 290-299). -/
structure AgentAttributes where
  gen_ai_system : String
  agent_name : String
  request_model : String
  prompt_tokens : Int
  completion_tokens : Int
  total_tokens : Int
  mode : String

/-- One cycle view (source lines 241-249). -/
structure CycleView where
  cycle_id : String
  prompt : String
  completion : String
  start_time : Int
  end_time : Int
  duration_ms : Int

structure TokenTriple where
  prompt_tokens : Int
  completion_tokens : Int
  total_tokens : Int

/-- One synthetic LLM call (source lines 253-266). -/
structure LlmCallView where
  call_id : String
  model : String
  start_time : Int
  end_time : Int
  duration_ms : Int
  prompt : String
  completion : String
  tokens : TokenTriple

/-- One tool-call view (source lines 270-278); the fixed `+0.1 s` float
offset carries no claim content and is dropped with the integer clock. -/
structure ToolCallView where
  tool_id : String
  tool_name : String
  start_time : Int
  end_time : Int
  duration_ms : Int
  parameters : Dict String
  result : String

/-- The UI-facing record (source lines 282-318).  `debug_info` repeats
fields already present; only its `new_cycles` entry is kept
(`debug_new_cycles`), since a claim refers to the per-record cycle delta. -/
structure UIRecord where
  message_id : String
  trace_id : String
  has_real_traces : Bool
  response_text : String
  message_text : String
  agent_attributes : AgentAttributes
  cycles : List CycleView
  llm_calls : List LlmCallView
  tool_calls : List ToolCallView
  total_duration_ms : Int
  total_tokens : TokenTriple
  metrics_summary : Summary
  debug_new_cycles : Int

/-- The completion text of one cycle (source lines 233-239): concatenation
of the assistant text blocks, each followed by a space. -/
def completion_of (t : TraceNode) : String :=
  t.children.foldl
    (fun acc c =>
      if isAssistantChild c then
        match c.message with
        | some m =>
            m.content.foldl
              (fun a b => match b with | .text s => a ++ s ++ " " | _ => a) acc
        | none => acc
      else acc) ""

/-- Build one cycle view (source lines 228-249). -/
def build_cycle (now : Int) (responseText : String) (i : Nat) (t : TraceNode) : CycleView :=
  let ct := pyStrip (completion_of t)
  { cycle_id := t.id.getD ("cycle_" ++ toString (i + 1))
    prompt := "User message"
    completion := if ct = "" then responseText else ct
    start_time := t.start_time.getD now
    end_time := t.end_time.getD (now + 1)
    duration_ms :=
      match t.duration with
      | some d => if d = 0 then 1000 else d * 1000
      | none => 1000 }

/-- Build one synthetic LLM call (source lines 253-266); the three
subscript reads of `token_delta` can raise `KeyError`.  Python `//` is
floor division, hence `Int.fdiv`. -/
def build_llm_call (actual_model : String) (pmd : PerMessageData) (cv : CycleView) :
    Except PyErr LlmCallView :=
  match mustGet pmd.token_delta "inputTokens" with
  | .error e => .error e
  | .ok inp =>
    match mustGet pmd.token_delta "outputTokens" with
    | .error e => .error e
    | .ok outp =>
      match mustGet pmd.token_delta "totalTokens" with
      | .error e => .error e
      | .ok tot =>
        .ok { call_id := "llm_" ++ cv.cycle_id, model := actual_model
              start_time := cv.start_time, end_time := cv.end_time
              duration_ms := cv.duration_ms, prompt := "User message"
              completion := cv.completion
              tokens :=
                { prompt_tokens := Int.fdiv inp (max 1 pmd.new_cycles)
                  completion_tokens := Int.fdiv outp (max 1 pmd.new_cycles)
                  total_tokens := Int.fdiv tot (max 1 pmd.new_cycles) } }

/-- The per-trace loop of source lines 228-266. -/
def build_cycles_llm (now : Int) (responseText actual_model : String)
    (pmd : PerMessageData) :
    List (Nat × TraceNode) → Except PyErr (List CycleView × List LlmCallView)
  | [] => .ok ([], [])
  | (i, t) :: rest =>
      let cv := build_cycle now responseText i t
      match build_llm_call actual_model pmd cv with
      | .error e => .error e
      | .ok lc =>
          match build_cycles_llm now responseText actual_model pmd rest with
          | .error e => .error e
          | .ok p => .ok (cv :: p.1, lc :: p.2)

/-- Build one tool-call view (source lines 270-278). -/
def build_tool_view (now : Int) (td : ToolCallData) : ToolCallView :=
  { tool_id := td.id, tool_name := td.name
    start_time := now, end_time := now
    duration_ms := 100, parameters := td.parameters, result := td.result }

/-- `convert_to_ui_format` (source lines 174-318).  After the cycle loop the
status line (source line 280) reads `token_delta['totalTokens']`, and the
returned dict reads all three token keys (lines 295-297 and 305-307); each
subscript read can raise `KeyError`. -/
def convert_to_ui_format (responseText : String) (pmd : PerMessageData)
    (messageId : String) (agent : Option Agent) (now : Int) : Except PyErr UIRecord :=
  let actual_model := derive_actual_model agent
  let agent_name := derive_agent_name agent
  match build_cycles_llm now responseText actual_model pmd pmd.new_traces.enum with
  | .error e => .error e
  | .ok cl =>
      let tool_views := pmd.tool_calls.map (build_tool_view now)
      match mustGet pmd.token_delta "totalTokens" with
      | .error e => .error e
      | .ok _ =>
        match mustGet pmd.token_delta "inputTokens" with
        | .error e => .error e
        | .ok inp =>
          match mustGet pmd.token_delta "outputTokens" with
          | .error e => .error e
          | .ok outp =>
            match mustGet pmd.token_delta "totalTokens" with
            | .error e => .error e
            | .ok tot =>
              .ok { message_id := messageId
                    trace_id := "trace_" ++ toString now
                    has_real_traces := true
                    response_text := responseText
                    message_text := ""
                    agent_attributes :=
                      { gen_ai_system := "strands-agents", agent_name := agent_name
                        request_model := actual_model, prompt_tokens := inp
                        completion_tokens := outp, total_tokens := tot, mode := "local" }
                    cycles := cl.1
                    llm_calls := cl.2
                    tool_calls := tool_views
                    total_duration_ms := pmd.latency_ms
                    total_tokens :=
                      { prompt_tokens := inp, completion_tokens := outp, total_tokens := tot }
                    metrics_summary := pmd.metrics_summary
                    debug_new_cycles := pmd.new_cycles }

/-- `if not message_id: message_id = f"msg_..."` (source lines 33-34):
an absent or empty (falsy) id is replaced by a clock-derived one. -/
def effectiveMessageId (mid : Option String) (now : Int) : String :=
  match mid with
  | some s => if s = "" then "msg_" ++ toString now else s
  | none => "msg_" ++ toString now

/-- `extract_strands_trace_data` (source lines 20-46): the identity-keyed
public entry point.  The `try/except` collapses every internal error into
the null result; state mutated before the error sticks. -/
def extract_strands_trace_data (resp : AgentResponse) (messageId : Option String)
    (agent : Option Agent) (now : Int) (st : EngineState) :
    Option UIRecord × EngineState :=
  match resp.metrics with
  | none => (none, st)
  | some summary =>
      let mid := effectiveMessageId messageId now
      match calculate_per_message_metrics summary agent st with
      | (.error _, st2) => (none, st2)
      | (.ok pmd0, st2) =>
          let pmd := { pmd0 with metrics_summary := summary }
          match convert_to_ui_format resp.text pmd mid agent now with
          | .error _ => (none, st2)
          | .ok rec => (some rec, st2)

/-- `extract_direct_metrics_from_response` (source lines 345-434): the
ephemeral companion entry point.  It never reads or writes the module
state, and its `try/except` collapses every internal error into the null
result. -/
def extract_direct_metrics_from_response (resp : AgentResponse)
    (messageId : Option String) (now : Int) (st : EngineState) :
    Option UIRecord × EngineState :=
  match resp.metrics with
  | none => (none, st)
  | some summary =>
      let mid := effectiveMessageId messageId now
      let current_usage := summary.accumulated_usage
      let mc_tc := extract_contents_tools_direct summary.traces
      let direct_metrics : PerMessageData :=
        { token_delta :=
            [("inputTokens", dgetD current_usage "inputTokens" 0),
             ("outputTokens", dgetD current_usage "outputTokens" 0),
             ("totalTokens", dgetD current_usage "totalTokens" 0)]
          new_cycles := summary.total_cycles
          latency_ms := dgetD summary.accumulated_metrics "latencyMs" 0
          message_contents := mc_tc.1
          tool_calls := mc_tc.2
          tool_usage := summary.tool_usage
          new_traces := summary.traces
          metrics_summary := summary }
      match convert_to_ui_format resp.text direct_metrics mid none now with
      | .error _ => (none, st)
      | .ok rec => (some rec, st)

/-- The five keys of `_session_totals` are present (true from import time
onward as long as `reset_metrics_state` has not been called). -/
def TotalsWF (st : EngineState) : Prop :=
  (dget st.session_totals "inputTokens").isSome = true ∧
  (dget st.session_totals "outputTokens").isSome = true ∧
  (dget st.session_totals "totalTokens").isSome = true ∧
  (dget st.session_totals "cycles").isSome = true ∧
  (dget st.session_totals "latencyMs").isSome = true

instance (st : EngineState) : Decidable (TotalsWF st) := by
  unfold TotalsWF; infer_instance

/-- Read one session total (0 when the key is absent). -/
def totalsVal (st : EngineState) (k : String) : Int := dgetD st.session_totals k 0

/-- One call to one of the two extraction entry points. -/
inductive Obs where
  | tracked (resp : AgentResponse) (mid : Option String) (agent : Option Agent) (now : Int)
  | ephemeral (resp : AgentResponse) (mid : Option String) (now : Int)

def Obs.isTracked : Obs → Bool
  | .tracked _ _ _ _ => true
  | .ephemeral _ _ _ => false

/-- Run one observation against the module state. -/
def stepObs (st : EngineState) : Obs → Option UIRecord × EngineState
  | .tracked resp mid agent now => extract_strands_trace_data resp mid agent now st
  | .ephemeral resp mid now => extract_direct_metrics_from_response resp mid now st

/-- Run a sequence of observations, collecting each call's result. -/
def runSeq (st : EngineState) : List Obs → List (Obs × Option UIRecord) × EngineState
  | [] => ([], st)
  | o :: rest =>
      let r := stepObs st o
      let l := runSeq r.2 rest
      ((o, r.1) :: l.1, l.2)

/-- Sum a per-record field over the records returned by identity-keyed
(tracked) calls only. -/
def sumRecField (f : UIRecord → Int) : List (Obs × Option UIRecord) → Int
  | [] => 0
  | (.tracked _ _ _ _, some rec) :: rest => f rec + sumRecField f rest
  | _ :: rest => sumRecField f rest

/-- Sum a per-record field over every record returned, tracked or ephemeral. -/
def sumAllRecField (f : UIRecord → Int) : List (Obs × Option UIRecord) → Int
  | [] => 0
  | (_, some rec) :: rest => f rec + sumAllRecField f rest
  | (_, none) :: rest => sumAllRecField f rest

/-- Every identity-keyed call in a run returned a record. -/
def allTrackedReturned (l : List (Obs × Option UIRecord)) : Bool :=
  l.all fun p => !p.1.isTracked || p.2.isSome

/-- Specification-side reading of a sibling's message: all `text` blocks
inside all `toolResult` blocks, in order. -/
def toolResultTexts (blocks : List ContentBlock) : List String :=
  blocks.foldr
    (fun b acc =>
      match b with
      | .toolResult rc => rc.filterMap textOf ++ acc
      | _ => acc) []

/-- The last element of a list, or the default when the list is empty. -/
def lastOr {α : Type} (d : α) : List α → α
  | [] => d
  | x :: xs => lastOr x xs

/-- Nonnegative cumulative counters, as the runtime contract promises
(the counters may still decrease between observations). -/
def NonnegSummary (s : Summary) : Prop :=
  0 ≤ dgetD s.accumulated_usage "inputTokens" 0 ∧
  0 ≤ dgetD s.accumulated_usage "outputTokens" 0 ∧
  0 ≤ dgetD s.accumulated_usage "totalTokens" 0 ∧
  0 ≤ s.total_cycles ∧
  0 ≤ dgetD s.accumulated_metrics "latencyMs" 0

instance (s : Summary) : Decidable (NonnegSummary s) := by
  unfold NonnegSummary; infer_instance

/-! Concrete inputs used by witnesses and counterexamples. -/

/-- A plain agent with identity 1 and no model or name attribute. -/
def wAgent : Agent := { pyId := 1, model := none, name := none, className := "Agent" }

/-- Cumulative summary `{input 10, output 5, total 15, cycles 2, latency 300}`. -/
def wSum1 : Summary :=
  { accumulated_usage := [("inputTokens", 10), ("outputTokens", 5), ("totalTokens", 15)]
    total_cycles := 2
    accumulated_metrics := [("latencyMs", 300)]
    traces := []
    tool_usage := [] }

/-- Cumulative summary `{input 18, output 9, total 27, cycles 3, latency 450}`. -/
def wSum2 : Summary :=
  { accumulated_usage := [("inputTokens", 18), ("outputTokens", 9), ("totalTokens", 27)]
    total_cycles := 3
    accumulated_metrics := [("latencyMs", 450)]
    traces := []
    tool_usage := [] }

/-- Decreased cumulative counters (regression below `wSum2`). -/
def wSumDec : Summary :=
  { accumulated_usage := [("inputTokens", 3), ("outputTokens", 1), ("totalTokens", 4)]
    total_cycles := 1
    accumulated_metrics := [("latencyMs", 50)]
    traces := []
    tool_usage := [] }

/-- Usage mapping missing all three token keys. -/
def wSumNoKeys : Summary :=
  { accumulated_usage := []
    total_cycles := 1
    accumulated_metrics := [("latencyMs", 100)]
    traces := []
    tool_usage := [] }

/-- A turn result carrying `wSum1`. -/
def wResp1 : AgentResponse := { metrics := some wSum1, text := "ok" }

/-- A cycle node holding one assistant `toolUse` (id `t1`) and one matching
tool-result sibling whose `toolResult` carries the texts `"a"` then `"b"`. -/
def wTraceAB : TraceNode :=
  .node (some "c1") (some "Cycle 1") none
    [ .node none (some "stream_messages")
        (some { role := "assistant"
                content := [.toolUse (some "t1") (some "calc") (some [])] })
        [] none none none none
    , .node none (some "Tool: calc")
        (some { role := "tool"
                content := [.toolResult [.text "a", .text "b"]] })
        [] (some "t1") none none none ]
    none none none none

/-- Summary whose single trace is `wTraceAB`. -/
def wSumAB : Summary :=
  { accumulated_usage := [("inputTokens", 1), ("outputTokens", 1), ("totalTokens", 2)]
    total_cycles := 1
    accumulated_metrics := [("latencyMs", 10)]
    traces := [wTraceAB]
    tool_usage := [] }

/-- Same shape with a single `toolResult` text block `"42"`. -/
def wTrace42 : TraceNode :=
  .node (some "c1") (some "Cycle 1") none
    [ .node none (some "stream_messages")
        (some { role := "assistant"
                content := [.toolUse (some "t1") (some "calc") (some [])] })
        [] none none none none
    , .node none (some "Tool: calc")
        (some { role := "tool"
                content := [.toolResult [.text "42"]] })
        [] (some "t1") none none none ]
    none none none none

/-- Summary whose single trace is `wTrace42`. -/
def wSum42 : Summary :=
  { accumulated_usage := [("inputTokens", 1), ("outputTokens", 1), ("totalTokens", 2)]
    total_cycles := 1
    accumulated_metrics := [("latencyMs", 10)]
    traces := [wTrace42]
    tool_usage := [] }

/-- Ephemeral-call summary `{input 5, output 5, total 10, cycles 1, latency 100}`. -/
def wSumEph : Summary :=
  { accumulated_usage := [("inputTokens", 5), ("outputTokens", 5), ("totalTokens", 10)]
    total_cycles := 1
    accumulated_metrics := [("latencyMs", 100)]
    traces := []
    tool_usage := [] }

/-- State in which identity 1 is tracked with snapshot `(10, 5, 15, 2, 300)`. -/
def wState1 : EngineState :=
  { agent_snapshots := [(1, { inputTokens := 10, outputTokens := 5, totalTokens := 15, cycles := 2, latencyMs := 300 })]
    session_totals := initialState.session_totals }

/-- State in which identity 1 is tracked with a snapshot whose cycle count
exceeds any trace-list length used in the witnesses. -/
def wStateBig : EngineState :=
  { agent_snapshots := [(1, { inputTokens := 0, outputTokens := 0, totalTokens := 0, cycles := 5, latencyMs := 0 })]
    session_totals := initialState.session_totals }

/-! ## Basic dictionary lemmas -/

theorem dget_dset_self {α : Type} (d : Dict α) (k : String) (v : α) :
    dget (dset d k v) k = some v := by
  induction d with
  | nil => simp [dset, dget]
  | cons p rest ih =>
      by_cases h : p.1 = k
      · simp [dset, h, dget]
      · simp [dset, h, dget, ih]

theorem dget_dset_ne {α : Type} (d : Dict α) {k k' : String} (v : α) (h : k ≠ k') :
    dget (dset d k v) k' = dget d k' := by
  induction d with
  | nil => simp [dset, dget, h]
  | cons p rest ih =>
      by_cases hp : p.1 = k
      · simp [dset, hp, dget, h]
      · simp [dset, hp, dget, ih]

theorem mustGet_eq_ok {α : Type} {d : Dict α} {k : String} {v : α}
    (h : mustGet d k = .ok v) : dget d k = some v := by
  unfold mustGet at h
  cases hd : dget d k with
  | none => rw [hd] at h; exact absurd h (by simp)
  | some w => rw [hd] at h; cases h; rfl

theorem mustGet_of_dget {α : Type} {d : Dict α} {k : String} {v : α}
    (h : dget d k = some v) : mustGet d k = .ok v := by
  unfold mustGet; rw [h]

theorem mustGet_err_of_none {α : Type} {d : Dict α} {k : String}
    (h : dget d k = none) : mustGet d k = .error (.keyError k) := by
  unfold mustGet; rw [h]

theorem dictAdd_ok {d : Dict Int} {k : String} {x : Int} (v : Int)
    (h : dget d k = some x) : dictAdd d k v = .ok (dset d k (x + v)) := by
  unfold dictAdd; rw [h]

/-! ## Branch lemmas for the delta phase -/

theorem compute_deltas_none (s : Summary) (st : EngineState) :
    compute_deltas s none st =
      { delta_usage := s.accumulated_usage, delta_cycles := s.total_cycles,
        delta_latency := dgetD s.accumulated_metrics "latencyMs" 0,
        prev_cycles_index := 0, st := st } := rfl

theorem compute_deltas_unseen (s : Summary) (a : Agent) (st : EngineState)
    (h : snapGet st.agent_snapshots a.pyId = none) :
    compute_deltas s (some a) st =
      { delta_usage := s.accumulated_usage, delta_cycles := s.total_cycles,
        delta_latency := dgetD s.accumulated_metrics "latencyMs" 0,
        prev_cycles_index := 0,
        st := storedState s a st } := by
  simp [compute_deltas, h]

theorem compute_deltas_seen (s : Summary) (a : Agent) (st : EngineState)
    (prev : Snapshot) (h : snapGet st.agent_snapshots a.pyId = some prev) :
    compute_deltas s (some a) st =
      { delta_usage :=
          [("inputTokens", max 0 (dgetD s.accumulated_usage "inputTokens" 0 - prev.inputTokens)),
           ("outputTokens", max 0 (dgetD s.accumulated_usage "outputTokens" 0 - prev.outputTokens)),
           ("totalTokens", max 0 (dgetD s.accumulated_usage "totalTokens" 0 - prev.totalTokens))]
        delta_cycles := max 0 (s.total_cycles - prev.cycles)
        delta_latency := max 0 (dgetD s.accumulated_metrics "latencyMs" 0 - prev.latencyMs)
        prev_cycles_index := prev.cycles
        st := storedState s a st } := by
  simp [compute_deltas, h]

theorem compute_deltas_totals (s : Summary) (ag : Option Agent) (st : EngineState) :
    (compute_deltas s ag st).st.session_totals = st.session_totals := by
  cases ag with
  | none => rfl
  | some a =>
      unfold compute_deltas
      cases h : snapGet st.agent_snapshots a.pyId <;> simp [h, storedState]

/-! ## The session-totals update -/

theorem addTotals_five {t : Dict Int} {x1 x2 x3 x4 x5 : Int}
    (h1 : dget t "inputTokens" = some x1)
    (h2 : dget t "outputTokens" = some x2)
    (h3 : dget t "totalTokens" = some x3)
    (h4 : dget t "cycles" = some x4)
    (h5 : dget t "latencyMs" = some x5)
    (v1 v2 v3 v4 v5 : Int) :
    ∃ t5, addTotals t
        [("inputTokens", v1), ("outputTokens", v2), ("totalTokens", v3),
         ("cycles", v4), ("latencyMs", v5)] = (.ok (), t5) ∧
      dget t5 "inputTokens" = some (x1 + v1) ∧
      dget t5 "outputTokens" = some (x2 + v2) ∧
      dget t5 "totalTokens" = some (x3 + v3) ∧
      dget t5 "cycles" = some (x4 + v4) ∧
      dget t5 "latencyMs" = some (x5 + v5) := by
  set t1 := dset t "inputTokens" (x1 + v1) with ht1
  have g12 : dget t1 "outputTokens" = some x2 := by
    rw [ht1, dget_dset_ne _ _ (by decide), h2]
  have g13 : dget t1 "totalTokens" = some x3 := by
    rw [ht1, dget_dset_ne _ _ (by decide), h3]
  have g14 : dget t1 "cycles" = some x4 := by
    rw [ht1, dget_dset_ne _ _ (by decide), h4]
  have g15 : dget t1 "latencyMs" = some x5 := by
    rw [ht1, dget_dset_ne _ _ (by decide), h5]
  have g11 : dget t1 "inputTokens" = some (x1 + v1) := by
    rw [ht1]; exact dget_dset_self ..
  set t2 := dset t1 "outputTokens" (x2 + v2) with ht2
  have g21 : dget t2 "inputTokens" = some (x1 + v1) := by
    rw [ht2, dget_dset_ne _ _ (by decide), g11]
  have g23 : dget t2 "totalTokens" = some x3 := by
    rw [ht2, dget_dset_ne _ _ (by decide), g13]
  have g24 : dget t2 "cycles" = some x4 := by
    rw [ht2, dget_dset_ne _ _ (by decide), g14]
  have g25 : dget t2 "latencyMs" = some x5 := by
    rw [ht2, dget_dset_ne _ _ (by decide), g15]
  have g22 : dget t2 "outputTokens" = some (x2 + v2) := by
    rw [ht2]; exact dget_dset_self ..
  set t3 := dset t2 "totalTokens" (x3 + v3) with ht3
  have g31 : dget t3 "inputTokens" = some (x1 + v1) := by
    rw [ht3, dget_dset_ne _ _ (by decide), g21]
  have g32 : dget t3 "outputTokens" = some (x2 + v2) := by
    rw [ht3, dget_dset_ne _ _ (by decide), g22]
  have g34 : dget t3 "cycles" = some x4 := by
    rw [ht3, dget_dset_ne _ _ (by decide), g24]
  have g35 : dget t3 "latencyMs" = some x5 := by
    rw [ht3, dget_dset_ne _ _ (by decide), g25]
  have g33 : dget t3 "totalTokens" = some (x3 + v3) := by
    rw [ht3]; exact dget_dset_self ..
  set t4 := dset t3 "cycles" (x4 + v4) with ht4
  have g41 : dget t4 "inputTokens" = some (x1 + v1) := by
    rw [ht4, dget_dset_ne _ _ (by decide), g31]
  have g42 : dget t4 "outputTokens" = some (x2 + v2) := by
    rw [ht4, dget_dset_ne _ _ (by decide), g32]
  have g43 : dget t4 "totalTokens" = some (x3 + v3) := by
    rw [ht4, dget_dset_ne _ _ (by decide), g33]
  have g45 : dget t4 "latencyMs" = some x5 := by
    rw [ht4, dget_dset_ne _ _ (by decide), g35]
  have g44 : dget t4 "cycles" = some (x4 + v4) := by
    rw [ht4]; exact dget_dset_self ..
  set t5 := dset t4 "latencyMs" (x5 + v5) with ht5
  refine ⟨t5, ?_, ?_, ?_, ?_, ?_, ?_⟩
  · show addTotals t _ = _
    unfold addTotals
    rw [dictAdd_ok v1 h1, ← ht1]
    unfold addTotals
    rw [dictAdd_ok v2 g12, ← ht2]
    unfold addTotals
    rw [dictAdd_ok v3 g23, ← ht3]
    unfold addTotals
    rw [dictAdd_ok v4 g34, ← ht4]
    unfold addTotals
    rw [dictAdd_ok v5 g45, ← ht5]
    rfl
  · rw [ht5, dget_dset_ne _ _ (by decide), g41]
  · rw [ht5, dget_dset_ne _ _ (by decide), g42]
  · rw [ht5, dget_dset_ne _ _ (by decide), g43]
  · rw [ht5, dget_dset_ne _ _ (by decide), g44]
  · rw [ht5]; exact dget_dset_self ..

/-! ## Master lemma: a well-formed totals table makes the delta calculation
succeed, with the computed deltas both returned and accumulated -/

theorem calculate_ok_of_WF (s : Summary) (ag : Option Agent) (st : EngineState)
    (hWF : TotalsWF st) :
    ∃ pmd st2, calculate_per_message_metrics s ag st = (.ok pmd, st2) ∧
      TotalsWF st2 ∧
      pmd.token_delta = (compute_deltas s ag st).delta_usage ∧
      pmd.new_cycles = (compute_deltas s ag st).delta_cycles ∧
      pmd.latency_ms = (compute_deltas s ag st).delta_latency ∧
      pmd.new_traces =
        (if (compute_deltas s ag st).prev_cycles_index < (s.traces.length : Int)
         then pySlice s.traces (compute_deltas s ag st).prev_cycles_index s.total_cycles
         else []) ∧
      pmd.message_contents = (extract_contents_tools pmd.new_traces).1 ∧
      pmd.tool_calls = (extract_contents_tools pmd.new_traces).2 ∧
      pmd.metrics_summary = s ∧
      st2.agent_snapshots = (compute_deltas s ag st).st.agent_snapshots ∧
      totalsVal st2 "inputTokens" =
        totalsVal st "inputTokens" + dgetD pmd.token_delta "inputTokens" 0 ∧
      totalsVal st2 "outputTokens" =
        totalsVal st "outputTokens" + dgetD pmd.token_delta "outputTokens" 0 ∧
      totalsVal st2 "totalTokens" =
        totalsVal st "totalTokens" + dgetD pmd.token_delta "totalTokens" 0 ∧
      totalsVal st2 "cycles" = totalsVal st "cycles" + pmd.new_cycles ∧
      totalsVal st2 "latencyMs" = totalsVal st "latencyMs" + pmd.latency_ms := by
  obtain ⟨h1, h2, h3, h4, h5⟩ := hWF
  obtain ⟨x1, hx1⟩ := Option.isSome_iff_exists.mp h1
  obtain ⟨x2, hx2⟩ := Option.isSome_iff_exists.mp h2
  obtain ⟨x3, hx3⟩ := Option.isSome_iff_exists.mp h3
  obtain ⟨x4, hx4⟩ := Option.isSome_iff_exists.mp h4
  obtain ⟨x5, hx5⟩ := Option.isSome_iff_exists.mp h5
  set dr := compute_deltas s ag st with hdr
  have hts : dr.st.session_totals = st.session_totals := compute_deltas_totals s ag st
  set v1 := dgetD dr.delta_usage "inputTokens" 0 with hv1
  set v2 := dgetD dr.delta_usage "outputTokens" 0 with hv2
  set v3 := dgetD dr.delta_usage "totalTokens" 0 with hv3
  obtain ⟨t5, hadd, g1, g2, g3, g4, g5⟩ :=
    addTotals_five hx1 hx2 hx3 hx4 hx5 v1 v2 v3 dr.delta_cycles dr.delta_latency
  set NT := (if dr.prev_cycles_index < (s.traces.length : Int)
      then pySlice s.traces dr.prev_cycles_index s.total_cycles
      else []) with hNT
  have hcalc : calculate_per_message_metrics s ag st =
      (.ok { token_delta := dr.delta_usage, new_cycles := dr.delta_cycles,
             latency_ms := dr.delta_latency,
             message_contents := (extract_contents_tools NT).1,
             tool_calls := (extract_contents_tools NT).2,
             tool_usage := s.tool_usage, new_traces := NT, metrics_summary := s },
        { dr.st with session_totals := t5 }) := by
    simp only [calculate_per_message_metrics]
    rw [← hdr, hts, ← hv1, ← hv2, ← hv3, hadd, ← hNT]
  refine ⟨_, _, hcalc, ?_, rfl, rfl, rfl, rfl, rfl, rfl, rfl, rfl, ?_, ?_, ?_, ?_, ?_⟩
  · exact ⟨by simp [g1], by simp [g2], by simp [g3], by simp [g4], by simp [g5]⟩
  · simp [totalsVal, dgetD, g1, hx1, hv1]
  · simp [totalsVal, dgetD, g2, hx2, hv2]
  · simp [totalsVal, dgetD, g3, hx3, hv3]
  · simp [totalsVal, dgetD, g4, hx4]
  · simp [totalsVal, dgetD, g5, hx5]

/-! ## Reads of the three-key delta dictionary built in the tracked branch -/

theorem dget_three_input (x y z : Int) :
    dget [("inputTokens", x), ("outputTokens", y), ("totalTokens", z)] "inputTokens" = some x := rfl

theorem dget_three_output (x y z : Int) :
    dget [("inputTokens", x), ("outputTokens", y), ("totalTokens", z)] "outputTokens" = some y := rfl

theorem dget_three_total (x y z : Int) :
    dget [("inputTokens", x), ("outputTokens", y), ("totalTokens", z)] "totalTokens" = some z := rfl

/-- The slice produced by the engine is a contiguous sub-sequence of the
full trace list. -/
theorem pySlice_sub {α : Type} (l : List α) (i j : Int) :
    ∃ u v, u ++ pySlice l i j ++ v = l := by
  refine ⟨l.take (pyIdx l.length i),
    (l.drop (pyIdx l.length i)).drop (pyIdx l.length j - pyIdx l.length i), ?_⟩
  rw [List.append_assoc]
  conv_rhs => rw [← List.take_append_drop (pyIdx l.length i) l]
  congr 1
  exact List.take_append_drop _ _

/-! ## Claim theorems -/

/-- C1: for every observation, when no previous snapshot exists for the
identity (first observation, or no identity supplied), each returned delta
field equals the corresponding current cumulative value; when a previous
snapshot exists, each delta field equals `max 0 (current - previous)`,
identically for token counts, cycle count and latency. -/
theorem claim_C1_delta_of_snapshot (s : Summary) (ag : Option Agent) (st : EngineState)
    (hWF : TotalsWF st) :
    (prevSnapshotOf ag st = none →
      ∃ pmd st2, calculate_per_message_metrics s ag st = (.ok pmd, st2) ∧
        dgetD pmd.token_delta "inputTokens" 0 = dgetD s.accumulated_usage "inputTokens" 0 ∧
        dgetD pmd.token_delta "outputTokens" 0 = dgetD s.accumulated_usage "outputTokens" 0 ∧
        dgetD pmd.token_delta "totalTokens" 0 = dgetD s.accumulated_usage "totalTokens" 0 ∧
        pmd.new_cycles = s.total_cycles ∧
        pmd.latency_ms = dgetD s.accumulated_metrics "latencyMs" 0) ∧
    (∀ prev, prevSnapshotOf ag st = some prev →
      ∃ pmd st2, calculate_per_message_metrics s ag st = (.ok pmd, st2) ∧
        dgetD pmd.token_delta "inputTokens" 0 =
          max 0 (dgetD s.accumulated_usage "inputTokens" 0 - prev.inputTokens) ∧
        dgetD pmd.token_delta "outputTokens" 0 =
          max 0 (dgetD s.accumulated_usage "outputTokens" 0 - prev.outputTokens) ∧
        dgetD pmd.token_delta "totalTokens" 0 =
          max 0 (dgetD s.accumulated_usage "totalTokens" 0 - prev.totalTokens) ∧
        pmd.new_cycles = max 0 (s.total_cycles - prev.cycles) ∧
        pmd.latency_ms = max 0 (dgetD s.accumulated_metrics "latencyMs" 0 - prev.latencyMs)) := by
  obtain ⟨pmd, st2, hc, _, htd, hnc, hlm, -, -, -, -, -, -⟩ :=
    calculate_ok_of_WF s ag st hWF
  constructor
  · intro hprev
    refine ⟨pmd, st2, hc, ?_⟩
    cases ag with
    | none =>
        rw [compute_deltas_none] at htd hnc hlm
        exact ⟨by rw [htd], by rw [htd], by rw [htd], hnc, hlm⟩
    | some a =>
        have hsg : snapGet st.agent_snapshots a.pyId = none := hprev
        rw [compute_deltas_unseen s a st hsg] at htd hnc hlm
        exact ⟨by rw [htd], by rw [htd], by rw [htd], hnc, hlm⟩
  · intro prev hprev
    refine ⟨pmd, st2, hc, ?_⟩
    cases ag with
    | none => exact absurd hprev (by simp [prevSnapshotOf])
    | some a =>
        have hsg : snapGet st.agent_snapshots a.pyId = some prev := hprev
        rw [compute_deltas_seen s a st prev hsg] at htd hnc hlm
        refine ⟨?_, ?_, ?_, hnc, hlm⟩
        · rw [htd]; simp [dgetD, dget_three_input]
        · rw [htd]; simp [dgetD, dget_three_output]
        · rw [htd]; simp [dgetD, dget_three_total]

/-- Witness for C1 (second-observation case with the spec's own numbers:
snapshot `(10,5,15,2,300)`, current `(18,9,27,3,450)`). -/
theorem claim_C1_witness :
    TotalsWF wState1 ∧
    (∃ pmd st2, calculate_per_message_metrics wSum2 (some wAgent) wState1 = (.ok pmd, st2) ∧
      dgetD pmd.token_delta "inputTokens" 0 =
        max 0 (dgetD wSum2.accumulated_usage "inputTokens" 0 - 10) ∧
      dgetD pmd.token_delta "outputTokens" 0 =
        max 0 (dgetD wSum2.accumulated_usage "outputTokens" 0 - 5) ∧
      dgetD pmd.token_delta "totalTokens" 0 =
        max 0 (dgetD wSum2.accumulated_usage "totalTokens" 0 - 15) ∧
      pmd.new_cycles = max 0 (wSum2.total_cycles - 2) ∧
      pmd.latency_ms = max 0 (dgetD wSum2.accumulated_metrics "latencyMs" 0 - 300)) :=
  ⟨by decide,
    (claim_C1_delta_of_snapshot wSum2 (some wAgent) wState1 (by decide)).2
      { inputTokens := 10, outputTokens := 5, totalTokens := 15, cycles := 2, latencyMs := 300 }
      rfl⟩

/-- C4: the two extraction entry points never raise to their caller — each
call either returns a per-message record or the null "no trace" result. -/
theorem claim_C4_entry_points_total (resp : AgentResponse) (mid : Option String)
    (ag : Option Agent) (now : Int) (st : EngineState) :
    ((extract_strands_trace_data resp mid ag now st).1 = none ∨
      ∃ r, (extract_strands_trace_data resp mid ag now st).1 = some r) ∧
    ((extract_direct_metrics_from_response resp mid now st).1 = none ∨
      ∃ r, (extract_direct_metrics_from_response resp mid now st).1 = some r) := by
  constructor
  · cases h : (extract_strands_trace_data resp mid ag now st).1 with
    | none => exact Or.inl rfl
    | some r => exact Or.inr ⟨r, rfl⟩
  · cases h : (extract_direct_metrics_from_response resp mid now st).1 with
    | none => exact Or.inl rfl
    | some r => exact Or.inr ⟨r, rfl⟩

/-- C5: every delta field returned by the delta calculation is nonnegative,
even when the supplied cumulative counters decreased since the snapshot
(the counters themselves being nonnegative, as cumulative counts are). -/
theorem claim_C5_nonneg_deltas (s : Summary) (ag : Option Agent) (st : EngineState)
    (hWF : TotalsWF st) (hs : NonnegSummary s) :
    ∃ pmd st2, calculate_per_message_metrics s ag st = (.ok pmd, st2) ∧
      0 ≤ dgetD pmd.token_delta "inputTokens" 0 ∧
      0 ≤ dgetD pmd.token_delta "outputTokens" 0 ∧
      0 ≤ dgetD pmd.token_delta "totalTokens" 0 ∧
      0 ≤ pmd.new_cycles ∧
      0 ≤ pmd.latency_ms := by
  obtain ⟨hs1, hs2, hs3, hs4, hs5⟩ := hs
  obtain ⟨pmd, st2, hc, _, htd, hnc, hlm, -, -, -, -, -, -⟩ :=
    calculate_ok_of_WF s ag st hWF
  refine ⟨pmd, st2, hc, ?_⟩
  cases ag with
  | none =>
      rw [compute_deltas_none] at htd hnc hlm
      exact ⟨by rw [htd]; exact hs1, by rw [htd]; exact hs2, by rw [htd]; exact hs3,
        by rw [hnc]; exact hs4, by rw [hlm]; exact hs5⟩
  | some a =>
      cases hsg : snapGet st.agent_snapshots a.pyId with
      | none =>
          rw [compute_deltas_unseen s a st hsg] at htd hnc hlm
          exact ⟨by rw [htd]; exact hs1, by rw [htd]; exact hs2, by rw [htd]; exact hs3,
            by rw [hnc]; exact hs4, by rw [hlm]; exact hs5⟩
      | some prev =>
          rw [compute_deltas_seen s a st prev hsg] at htd hnc hlm
          refine ⟨?_, ?_, ?_, ?_, ?_⟩
          · rw [htd]; simp [dgetD, dget_three_input]
          · rw [htd]; simp [dgetD, dget_three_output]
          · rw [htd]; simp [dgetD, dget_three_total]
          · rw [hnc]; exact le_max_left 0 _
          · rw [hlm]; exact le_max_left 0 _

/-- Witness for C5: the counters regress below the stored snapshot
(`wState1` holds `(10,5,15,2,300)`, the new summary reports `(3,1,4,1,50)`). -/
theorem claim_C5_witness :
    (TotalsWF wState1 ∧ NonnegSummary wSumDec) ∧
    (∃ pmd st2, calculate_per_message_metrics wSumDec (some wAgent) wState1 = (.ok pmd, st2) ∧
      0 ≤ dgetD pmd.token_delta "inputTokens" 0 ∧
      0 ≤ dgetD pmd.token_delta "outputTokens" 0 ∧
      0 ≤ dgetD pmd.token_delta "totalTokens" 0 ∧
      0 ≤ pmd.new_cycles ∧
      0 ≤ pmd.latency_ms) :=
  ⟨⟨by decide, by decide⟩,
    claim_C5_nonneg_deltas wSumDec (some wAgent) wState1 (by decide) (by decide)⟩

/-- C7: for a tracked identity the engine returns
`traces[previousCycleIndex : currentCycleIndex]` when the previous cycle
index is below the trace-list length and the empty sequence otherwise,
without raising; the result is always a contiguous sub-sequence of the
trace list. -/
theorem claim_C7_trace_slice (s : Summary) (a : Agent) (st : EngineState) (prev : Snapshot)
    (hWF : TotalsWF st) (hprev : snapGet st.agent_snapshots a.pyId = some prev) :
    ∃ pmd st2, calculate_per_message_metrics s (some a) st = (.ok pmd, st2) ∧
      pmd.new_traces =
        (if prev.cycles < (s.traces.length : Int)
         then pySlice s.traces prev.cycles s.total_cycles
         else []) ∧
      ((s.traces.length : Int) ≤ prev.cycles → pmd.new_traces = []) ∧
      ∃ u v, u ++ pmd.new_traces ++ v = s.traces := by
  obtain ⟨pmd, st2, hc, _, -, -, -, hnt, -, -, -, -, -⟩ :=
    calculate_ok_of_WF s (some a) st hWF
  rw [compute_deltas_seen s a st prev hprev] at hnt
  refine ⟨pmd, st2, hc, hnt, ?_, ?_⟩
  · intro hle
    rw [hnt, if_neg (not_lt.mpr hle)]
  · rw [hnt]
    by_cases hlt : prev.cycles < (s.traces.length : Int)
    · rw [if_pos hlt]; exact pySlice_sub s.traces prev.cycles s.total_cycles
    · rw [if_neg hlt]; exact ⟨s.traces, [], by simp⟩

/-- Witness for C7: snapshot cycle index 5 against a trace list of length 1
(the consistency violation the slicer must absorb) — the slice is empty. -/
theorem claim_C7_witness :
    TotalsWF wStateBig ∧
    (∃ pmd st2, calculate_per_message_metrics wSumAB (some wAgent) wStateBig = (.ok pmd, st2) ∧
      pmd.new_traces =
        (if (5 : Int) < (wSumAB.traces.length : Int)
         then pySlice wSumAB.traces 5 wSumAB.total_cycles
         else []) ∧
      ((wSumAB.traces.length : Int) ≤ 5 → pmd.new_traces = []) ∧
      ∃ u v, u ++ pmd.new_traces ++ v = wSumAB.traces) :=
  ⟨by decide,
    claim_C7_trace_slice wSumAB wAgent wStateBig
      { inputTokens := 0, outputTokens := 0, totalTokens := 0, cycles := 5, latencyMs := 0 }
      (by decide) rfl⟩

/-! ## Behaviour of the view builder on the token-delta dictionary -/

theorem build_cycles_llm_ok (now : Int) (rt am : String) (pmd : PerMessageData)
    {i1 i2 i3 : Int}
    (h1 : dget pmd.token_delta "inputTokens" = some i1)
    (h2 : dget pmd.token_delta "outputTokens" = some i2)
    (h3 : dget pmd.token_delta "totalTokens" = some i3) :
    ∀ l, ∃ p, build_cycles_llm now rt am pmd l = .ok p := by
  intro l
  induction l with
  | nil => exact ⟨([], []), rfl⟩
  | cons it rest ih =>
      obtain ⟨p, hp⟩ := ih
      obtain ⟨i, t⟩ := it
      cases hres : build_cycles_llm now rt am pmd ((i, t) :: rest) with
      | ok q => exact ⟨q, rfl⟩
      | error e =>
          exfalso
          simp only [build_cycles_llm, build_llm_call, mustGet_of_dget h1,
            mustGet_of_dget h2, mustGet_of_dget h3, hp] at hres
          exact Except.noConfusion hres

theorem convert_ok_fields (rt : String) (pmd : PerMessageData) (mid : String)
    (ag : Option Agent) (now : Int) {i1 i2 i3 : Int}
    (h1 : dget pmd.token_delta "inputTokens" = some i1)
    (h2 : dget pmd.token_delta "outputTokens" = some i2)
    (h3 : dget pmd.token_delta "totalTokens" = some i3) :
    ∃ rec, convert_to_ui_format rt pmd mid ag now = .ok rec ∧
      rec.agent_attributes.prompt_tokens = i1 ∧
      rec.agent_attributes.completion_tokens = i2 ∧
      rec.agent_attributes.total_tokens = i3 ∧
      rec.total_duration_ms = pmd.latency_ms ∧
      rec.debug_new_cycles = pmd.new_cycles := by
  obtain ⟨p, hp⟩ :=
    build_cycles_llm_ok now rt (derive_actual_model ag) pmd h1 h2 h3 pmd.new_traces.enum
  cases hcv : convert_to_ui_format rt pmd mid ag now with
  | error e =>
      exfalso
      simp only [convert_to_ui_format, hp, mustGet_of_dget h1,
        mustGet_of_dget h2, mustGet_of_dget h3] at hcv
      exact Except.noConfusion hcv
  | ok rec =>
      have hcv2 := hcv
      simp only [convert_to_ui_format, hp, mustGet_of_dget h1,
        mustGet_of_dget h2, mustGet_of_dget h3] at hcv2
      injection hcv2 with hcv2
      refine ⟨rec, rfl, ?_, ?_, ?_, ?_, ?_⟩ <;> rw [← hcv2]

theorem convert_err_of_missing (rt : String) (pmd : PerMessageData) (mid : String)
    (ag : Option Agent) (now : Int)
    (h : dget pmd.token_delta "inputTokens" = none ∨
         dget pmd.token_delta "outputTokens" = none ∨
         dget pmd.token_delta "totalTokens" = none) :
    ∃ e, convert_to_ui_format rt pmd mid ag now = .error e := by
  cases hb : build_cycles_llm now rt (derive_actual_model ag) pmd pmd.new_traces.enum with
  | error e =>
      exact ⟨e, by simp only [convert_to_ui_format]; rw [hb]⟩
  | ok cl =>
      rcases h with h | h | h
      · cases hm3 : dget pmd.token_delta "totalTokens" with
        | none =>
            exact ⟨.keyError "totalTokens", by
              simp only [convert_to_ui_format]; rw [hb, mustGet_err_of_none hm3]⟩
        | some v3 =>
            exact ⟨.keyError "inputTokens", by
              simp only [convert_to_ui_format]
              rw [hb, mustGet_of_dget hm3, mustGet_err_of_none h]⟩
      · cases hm3 : dget pmd.token_delta "totalTokens" with
        | none =>
            exact ⟨.keyError "totalTokens", by
              simp only [convert_to_ui_format]; rw [hb, mustGet_err_of_none hm3]⟩
        | some v3 =>
            cases hm1 : dget pmd.token_delta "inputTokens" with
            | none =>
                exact ⟨.keyError "inputTokens", by
                  simp only [convert_to_ui_format]
                  rw [hb, mustGet_of_dget hm3, mustGet_err_of_none hm1]⟩
            | some v1 =>
                exact ⟨.keyError "outputTokens", by
                  simp only [convert_to_ui_format]
                  rw [hb, mustGet_of_dget hm3, mustGet_of_dget hm1, mustGet_err_of_none h]⟩
      · exact ⟨.keyError "totalTokens", by
          simp only [convert_to_ui_format]; rw [hb, mustGet_err_of_none h]⟩

/-! ## Tool-result join semantics (C3) -/

theorem lastOr_append {α : Type} (d : α) (xs ys : List α) :
    lastOr d (xs ++ ys) = lastOr (lastOr d xs) ys := by
  induction xs generalizing d with
  | nil => rfl
  | cons x xs ih => simp [lastOr, ih]

theorem foldl_lastTextStep (rc : List ContentBlock) (acc : String) :
    rc.foldl lastTextStep acc = lastOr acc (rc.filterMap textOf) := by
  induction rc generalizing acc with
  | nil => rfl
  | cons b bs ih =>
      cases b <;> simp [List.foldl, lastTextStep, textOf, List.filterMap_cons, ih, lastOr]

theorem foldl_toolResultFold (blocks : List ContentBlock) (acc : String) :
    blocks.foldl toolResultFold acc = lastOr acc (toolResultTexts blocks) := by
  induction blocks generalizing acc with
  | nil => rfl
  | cons b bs ih =>
      cases b with
      | toolResult rc =>
          simp only [List.foldl, toolResultFold, toolResultTexts, List.foldr,
            lastOr_append, foldl_lastTextStep]
          exact ih _
      | text t => simpa [List.foldl, toolResultFold, toolResultTexts] using ih acc
      | toolUse a b c => simpa [List.foldl, toolResultFold, toolResultTexts] using ih acc
      | other => simpa [List.foldl, toolResultFold, toolResultTexts] using ih acc

/-- C3 (amended): the sibling scan resolves a tool-use id to the **first**
sibling whose name contains `"Tool:"` and whose metadata tool-use id
matches, stopping there; from that sibling's message the resolved result is
the **last** `text` content-block across its `toolResult` blocks (not the
first, as claimed); in particular, with one matching sibling whose
`toolResult` holds the single text block `"42"`, the produced record has
result `"42"`. -/
theorem claim_C3_tool_join_last_text :
    (∀ (sibs : List TraceNode) (toolId : String),
      find_tool_result sibs toolId =
        (match sibs.find? (fun c => isToolMatch c toolId) with
         | some c => resultTextOfSibling c
         | none => "")) ∧
    (∀ c : TraceNode,
      resultTextOfSibling c =
        (match c.message with
         | some m => lastOr "" (toolResultTexts m.content)
         | none => "")) ∧
    ((calculate_per_message_metrics wSum42 none initialState).1.map
        (fun p => p.tool_calls.map ToolCallData.result) = .ok ["42"]) := by
  refine ⟨?_, ?_, rfl⟩
  · intro sibs toolId
    induction sibs with
    | nil => rfl
    | cons c rest ih =>
        by_cases h : isToolMatch c toolId
        · simp [find_tool_result, h, List.find?]
        · simp [find_tool_result, h, List.find?, ih]
  · intro c
    cases hm : c.message with
    | none => simp [resultTextOfSibling, hm]
    | some m => simp [resultTextOfSibling, hm, foldl_toolResultFold]

/-- Counterexample for C3: a `toolResult` whose content carries the text
blocks `"a"` then `"b"` resolves to `"b"` (the last), not `"a"` (the first,
as the claim states). -/
theorem claim_C3_counterexample :
    ((calculate_per_message_metrics wSumAB none initialState).1.map
        (fun p => p.tool_calls.map ToolCallData.result) = .ok ["b"]) ∧
    ("b" : String) ≠ "a" := by
  exact ⟨rfl, by decide⟩

/-! ## Model-name chain (C8) -/

/-- C8 (amended): the display model name probes, in priority order, the
canonical `model_id`, then the fallbacks `model`, `model_name`, `_model_id`
(the `__dict__['model_id']` probe coincides with the first), then the class
name pattern-matched against the known providers; when nothing matches the
result is the **class name itself**, not `"Unknown Model"`. -/
theorem claim_C8_model_name_chain (m : ModelObj) :
    (∀ v, dget m.attrs "model_id" = some v → derive_model_from_obj m = v) ∧
    (dget m.attrs "model_id" = none →
      ∀ v, dget m.attrs "model" = some v → derive_model_from_obj m = v) ∧
    (dget m.attrs "model_id" = none → dget m.attrs "model" = none →
      ∀ v, dget m.attrs "model_name" = some v → derive_model_from_obj m = v) ∧
    (dget m.attrs "model_id" = none → dget m.attrs "model" = none →
      dget m.attrs "model_name" = none →
      ∀ v, dget m.attrs "_model_id" = some v → derive_model_from_obj m = v) ∧
    (dget m.attrs "model_id" = none → dget m.attrs "model" = none →
      dget m.attrs "model_name" = none → dget m.attrs "_model_id" = none →
      derive_model_from_obj m =
        (if containsSub m.className "Bedrock" then "BedrockModel"
         else if containsSub m.className "Anthropic" then "AnthropicModel"
         else if containsSub m.className "OpenAI" then "OpenAIModel"
         else m.className)) := by
  refine ⟨?_, ?_, ?_, ?_, ?_⟩
  · intro v h; unfold derive_model_from_obj; rw [h]
  · intro h0 v h; unfold derive_model_from_obj; rw [h0, h]
  · intro h0 h1 v h; unfold derive_model_from_obj; rw [h0, h1, h]
  · intro h0 h1 h2 v h; unfold derive_model_from_obj; rw [h0, h1, h2, h]
  · intro h0 h1 h2 h3; unfold derive_model_from_obj; rw [h0, h1, h2, h3]

/-- Witness for C8: a model object carrying `model_id = "abc"` resolves to
`"abc"` through the first probe. -/
theorem claim_C8_witness :
    dget (ModelObj.attrs { attrs := [("model_id", "abc")], className := "X" }) "model_id"
        = some "abc" ∧
    derive_model_from_obj { attrs := [("model_id", "abc")], className := "X" } = "abc" :=
  ⟨rfl, (claim_C8_model_name_chain { attrs := [("model_id", "abc")], className := "X" }).1
    "abc" rfl⟩

/-- Counterexample for C8: a model object with none of the identifier
fields and an unrecognised class name yields the class name itself, not
`"Unknown Model"`. -/
theorem claim_C8_counterexample :
    derive_model_from_obj { attrs := [], className := "CustomLLM" } = "CustomLLM" ∧
    derive_model_from_obj { attrs := [], className := "CustomLLM" } ≠ "Unknown Model" := by
  exact ⟨by decide, by decide⟩

/-! ## Reset behaviour (C2) -/

/-- C2: `reset_metrics_state` is idempotent, but after a reset a previously
tracked identity does **not** behave as a first observation: because
`_session_totals.clear()` removes the keys the `+=` updates need, the next
identity-keyed observation raises `KeyError` internally and the entry point
returns the null result instead of a per-message record. -/
theorem claim_C2_reset_bug :
    (∀ st : EngineState, reset_metrics_state (reset_metrics_state st) = reset_metrics_state st) ∧
    (extract_strands_trace_data wResp1 (some "m1") (some wAgent) 0 initialState).1.isSome = true ∧
    (extract_strands_trace_data wResp1 (some "m2") (some wAgent) 0
        (reset_metrics_state
          (extract_strands_trace_data wResp1 (some "m1") (some wAgent) 0 initialState).2)).1
      = none := by
  refine ⟨fun st => rfl, by decide, rfl⟩

/-- C9: the ephemeral companion entry point leaves the snapshot table and
the session totals completely unchanged, for every input. -/
theorem claim_C9_ephemeral_frame (resp : AgentResponse) (mid : Option String)
    (now : Int) (st : EngineState) :
    (extract_direct_metrics_from_response resp mid now st).2 = st := by
  unfold extract_direct_metrics_from_response
  cases resp.metrics with
  | none => rfl
  | some summary =>
      simp only []
      split <;> rfl

/-- C10: when the usage mapping is missing any of the three token keys, a
first observation (no snapshot, or no identity) returns the null result —
the view builder's subscript reads raise `KeyError`, caught at the entry
point — while a second observation of a tracked identity returns a record
in which the missing fields are treated as 0 (via `max 0 (0 - prev)` on
the `dgetD` default). -/
theorem claim_C10_missing_keys_asymmetry (resp : AgentResponse) (s : Summary)
    (mid : Option String) (ag : Option Agent) (now : Int) (st : EngineState)
    (hresp : resp.metrics = some s) (hWF : TotalsWF st)
    (hmiss : dget s.accumulated_usage "inputTokens" = none ∨
             dget s.accumulated_usage "outputTokens" = none ∨
             dget s.accumulated_usage "totalTokens" = none) :
    (prevSnapshotOf ag st = none →
      ∃ st2, extract_strands_trace_data resp mid ag now st = (none, st2)) ∧
    (∀ prev, prevSnapshotOf ag st = some prev →
      ∃ rec st2, extract_strands_trace_data resp mid ag now st = (some rec, st2) ∧
        rec.agent_attributes.prompt_tokens =
          max 0 (dgetD s.accumulated_usage "inputTokens" 0 - prev.inputTokens) ∧
        rec.agent_attributes.completion_tokens =
          max 0 (dgetD s.accumulated_usage "outputTokens" 0 - prev.outputTokens) ∧
        rec.agent_attributes.total_tokens =
          max 0 (dgetD s.accumulated_usage "totalTokens" 0 - prev.totalTokens)) := by
  obtain ⟨pmd, st2, hc, _, htd, -, -, -, -, -, -, -, -⟩ :=
    calculate_ok_of_WF s ag st hWF
  constructor
  · intro hprev
    have htd2 : pmd.token_delta = s.accumulated_usage := by
      cases ag with
      | none => rw [compute_deltas_none] at htd; exact htd
      | some a =>
          have hsg : snapGet st.agent_snapshots a.pyId = none := hprev
          rw [compute_deltas_unseen s a st hsg] at htd; exact htd
    obtain ⟨e, he⟩ := convert_err_of_missing resp.text { pmd with metrics_summary := s }
      (effectiveMessageId mid now) ag now (by simpa [htd2] using hmiss)
    exact ⟨st2, by simp only [extract_strands_trace_data, hresp, hc, he]⟩
  · intro prev hprev
    cases ag with
    | none => exact absurd hprev (by simp [prevSnapshotOf])
    | some a =>
        have hsg : snapGet st.agent_snapshots a.pyId = some prev := hprev
        rw [compute_deltas_seen s a st prev hsg] at htd
        have h1 : dget pmd.token_delta "inputTokens" =
            some (max 0 (dgetD s.accumulated_usage "inputTokens" 0 - prev.inputTokens)) := by
          rw [htd]; exact dget_three_input _ _ _
        have h2 : dget pmd.token_delta "outputTokens" =
            some (max 0 (dgetD s.accumulated_usage "outputTokens" 0 - prev.outputTokens)) := by
          rw [htd]; exact dget_three_output _ _ _
        have h3 : dget pmd.token_delta "totalTokens" =
            some (max 0 (dgetD s.accumulated_usage "totalTokens" 0 - prev.totalTokens)) := by
          rw [htd]; exact dget_three_total _ _ _
        obtain ⟨rec, hcv, f1, f2, f3, -, -⟩ := convert_ok_fields resp.text
          { pmd with metrics_summary := s } (effectiveMessageId mid now) (some a) now h1 h2 h3
        exact ⟨rec, st2,
          by simp only [extract_strands_trace_data, hresp, hc, hcv], f1, f2, f3⟩

/-- Witness for C10: the usage mapping of `wSumNoKeys` has no token keys.
Against the empty initial state the entry point returns the null result;
against `wState1` (identity 1 tracked with snapshot `(10,5,15,2,300)`) it
returns a record whose token fields clamp the missing values to 0. -/
theorem claim_C10_witness :
    (∃ st2, extract_strands_trace_data { metrics := some wSumNoKeys, text := "t" }
        (some "m") (some wAgent) 0 initialState = (none, st2)) ∧
    (∃ rec st2, extract_strands_trace_data { metrics := some wSumNoKeys, text := "t" }
        (some "m") (some wAgent) 0 wState1 = (some rec, st2) ∧
      rec.agent_attributes.prompt_tokens =
        max 0 (dgetD wSumNoKeys.accumulated_usage "inputTokens" 0 - 10) ∧
      rec.agent_attributes.completion_tokens =
        max 0 (dgetD wSumNoKeys.accumulated_usage "outputTokens" 0 - 5) ∧
      rec.agent_attributes.total_tokens =
        max 0 (dgetD wSumNoKeys.accumulated_usage "totalTokens" 0 - 15)) :=
  ⟨(claim_C10_missing_keys_asymmetry { metrics := some wSumNoKeys, text := "t" } wSumNoKeys
      (some "m") (some wAgent) 0 initialState rfl (by decide) (Or.inl rfl)).1 rfl,
   (claim_C10_missing_keys_asymmetry { metrics := some wSumNoKeys, text := "t" } wSumNoKeys
      (some "m") (some wAgent) 0 wState1 rfl (by decide) (Or.inl rfl)).2
      { inputTokens := 10, outputTokens := 5, totalTokens := 15, cycles := 2, latencyMs := 300 }
      rfl⟩

/-! ## Session-total accumulation (C6) -/

theorem direct_state_frame (resp : AgentResponse) (mid : Option String)
    (now : Int) (st : EngineState) :
    (extract_direct_metrics_from_response resp mid now st).2 = st := by
  unfold extract_direct_metrics_from_response
  cases resp.metrics with
  | none => rfl
  | some summary =>
      simp only []
      split <;> rfl

theorem tracked_step_totals (resp : AgentResponse) (mid : Option String) (ag : Option Agent)
    (now : Int) (st : EngineState) (hWF : TotalsWF st) (rec : UIRecord) (st2 : EngineState)
    (h : extract_strands_trace_data resp mid ag now st = (some rec, st2)) :
    TotalsWF st2 ∧
    totalsVal st2 "inputTokens" =
      totalsVal st "inputTokens" + rec.agent_attributes.prompt_tokens ∧
    totalsVal st2 "outputTokens" =
      totalsVal st "outputTokens" + rec.agent_attributes.completion_tokens ∧
    totalsVal st2 "totalTokens" =
      totalsVal st "totalTokens" + rec.agent_attributes.total_tokens ∧
    totalsVal st2 "cycles" = totalsVal st "cycles" + rec.debug_new_cycles ∧
    totalsVal st2 "latencyMs" = totalsVal st "latencyMs" + rec.total_duration_ms := by
  cases hm : resp.metrics with
  | none =>
      simp only [extract_strands_trace_data, hm] at h
      exact absurd h (by simp)
  | some s =>
      obtain ⟨pmd, stc, hc, hWF2, htd, hnc, hlm, -, -, -, -, -, e1, e2, e3, e4, e5⟩ :=
        calculate_ok_of_WF s ag st hWF
      simp only [extract_strands_trace_data, hm, hc] at h
      cases hm1 : dget pmd.token_delta "inputTokens" with
      | none =>
          obtain ⟨e, he⟩ := convert_err_of_missing resp.text { pmd with metrics_summary := s }
            (effectiveMessageId mid now) ag now (Or.inl hm1)
          rw [he] at h
          exact absurd h (by simp)
      | some i1 =>
          cases hm2 : dget pmd.token_delta "outputTokens" with
          | none =>
              obtain ⟨e, he⟩ := convert_err_of_missing resp.text { pmd with metrics_summary := s }
                (effectiveMessageId mid now) ag now (Or.inr (Or.inl hm2))
              rw [he] at h
              exact absurd h (by simp)
          | some i2 =>
              cases hm3 : dget pmd.token_delta "totalTokens" with
              | none =>
                  obtain ⟨e, he⟩ := convert_err_of_missing resp.text { pmd with metrics_summary := s }
                    (effectiveMessageId mid now) ag now (Or.inr (Or.inr hm3))
                  rw [he] at h
                  exact absurd h (by simp)
              | some i3 =>
                  obtain ⟨rec2, hcv, f1, f2, f3, f4, f5⟩ := convert_ok_fields resp.text
                    { pmd with metrics_summary := s } (effectiveMessageId mid now) ag now
                    hm1 hm2 hm3
                  rw [hcv] at h
                  injection h with h1 h2
                  injection h1 with h1
                  subst h1
                  subst h2
                  refine ⟨hWF2, ?_, ?_, ?_, ?_, ?_⟩
                  · rw [f1]
                    have hi : dgetD pmd.token_delta "inputTokens" 0 = i1 := by
                      simp [dgetD, hm1]
                    rw [← hi]; exact e1
                  · rw [f2]
                    have hi : dgetD pmd.token_delta "outputTokens" 0 = i2 := by
                      simp [dgetD, hm2]
                    rw [← hi]; exact e2
                  · rw [f3]
                    have hi : dgetD pmd.token_delta "totalTokens" 0 = i3 := by
                      simp [dgetD, hm3]
                    rw [← hi]; exact e3
                  · rw [f5]; exact e4
                  · rw [f4]; exact e5

theorem runSeq_totals (l : List Obs) :
    ∀ st : EngineState, TotalsWF st →
      allTrackedReturned (runSeq st l).1 = true →
      TotalsWF (runSeq st l).2 ∧
      totalsVal (runSeq st l).2 "inputTokens" =
        totalsVal st "inputTokens" +
          sumRecField (fun r => r.agent_attributes.prompt_tokens) (runSeq st l).1 ∧
      totalsVal (runSeq st l).2 "outputTokens" =
        totalsVal st "outputTokens" +
          sumRecField (fun r => r.agent_attributes.completion_tokens) (runSeq st l).1 ∧
      totalsVal (runSeq st l).2 "totalTokens" =
        totalsVal st "totalTokens" +
          sumRecField (fun r => r.agent_attributes.total_tokens) (runSeq st l).1 ∧
      totalsVal (runSeq st l).2 "cycles" =
        totalsVal st "cycles" +
          sumRecField (fun r => r.debug_new_cycles) (runSeq st l).1 ∧
      totalsVal (runSeq st l).2 "latencyMs" =
        totalsVal st "latencyMs" +
          sumRecField (fun r => r.total_duration_ms) (runSeq st l).1 := by
  induction l with
  | nil =>
      intro st hWF _
      refine ⟨hWF, ?_, ?_, ?_, ?_, ?_⟩ <;> simp [runSeq, sumRecField]
  | cons o rest ih =>
      intro st hWF hall
      simp only [runSeq] at hall ⊢
      cases o with
      | ephemeral resp mid now =>
          simp only [stepObs] at hall ⊢
          have hst : (extract_direct_metrics_from_response resp mid now st).2 = st :=
            direct_state_frame resp mid now st
          rw [hst] at hall ⊢
          simp only [allTrackedReturned, List.all_cons, Bool.and_eq_true] at hall
          obtain ⟨hW, r1, r2, r3, r4, r5⟩ := ih st hWF hall.2
          refine ⟨hW, ?_, ?_, ?_, ?_, ?_⟩ <;>
            simp only [sumRecField] <;> assumption
      | tracked resp mid ag now =>
          simp only [stepObs] at hall ⊢
          simp only [allTrackedReturned, List.all_cons, Bool.and_eq_true] at hall
          obtain ⟨h1, h2⟩ := hall
          simp only [Obs.isTracked, Bool.not_true, Bool.false_or] at h1
          obtain ⟨rec, hrec⟩ := Option.isSome_iff_exists.mp h1
          have hx : extract_strands_trace_data resp mid ag now st =
              (some rec, (extract_strands_trace_data resp mid ag now st).2) := by
            rw [← hrec]
          obtain ⟨hW1, s1, s2, s3, s4, s5⟩ :=
            tracked_step_totals resp mid ag now st hWF rec _ hx
          obtain ⟨hW, r1, r2, r3, r4, r5⟩ :=
            ih (extract_strands_trace_data resp mid ag now st).2 hW1 h2
          refine ⟨hW, ?_, ?_, ?_, ?_, ?_⟩ <;>
            simp only [hrec, sumRecField] <;> omega


/-- C6 (amended): after any sequence of observations with no reset in
which every identity-keyed call returned a per-message record, the session
totals equal the sums of the corresponding delta fields over the records
returned by the identity-keyed entry point alone; observations through the
companion no-delta-tracking entry point contribute nothing (they never
touch the totals). -/
theorem claim_C6_session_totals (l : List Obs)
    (hall : allTrackedReturned (runSeq initialState l).1 = true) :
    totalsVal (runSeq initialState l).2 "inputTokens" =
      sumRecField (fun r => r.agent_attributes.prompt_tokens) (runSeq initialState l).1 ∧
    totalsVal (runSeq initialState l).2 "outputTokens" =
      sumRecField (fun r => r.agent_attributes.completion_tokens) (runSeq initialState l).1 ∧
    totalsVal (runSeq initialState l).2 "totalTokens" =
      sumRecField (fun r => r.agent_attributes.total_tokens) (runSeq initialState l).1 ∧
    totalsVal (runSeq initialState l).2 "cycles" =
      sumRecField (fun r => r.debug_new_cycles) (runSeq initialState l).1 ∧
    totalsVal (runSeq initialState l).2 "latencyMs" =
      sumRecField (fun r => r.total_duration_ms) (runSeq initialState l).1 := by
  obtain ⟨-, r1, r2, r3, r4, r5⟩ := runSeq_totals l initialState (by decide) hall
  refine ⟨?_, ?_, ?_, ?_, ?_⟩
  · rw [r1, show totalsVal initialState "inputTokens" = 0 from rfl, zero_add]
  · rw [r2, show totalsVal initialState "outputTokens" = 0 from rfl, zero_add]
  · rw [r3, show totalsVal initialState "totalTokens" = 0 from rfl, zero_add]
  · rw [r4, show totalsVal initialState "cycles" = 0 from rfl, zero_add]
  · rw [r5, show totalsVal initialState "latencyMs" = 0 from rfl, zero_add]

/-- Witness for C6: one identity-keyed observation of `wSum1` from the
initial state returns a record, and the session totals equal its deltas. -/
theorem claim_C6_witness :
    allTrackedReturned
      (runSeq initialState [Obs.tracked wResp1 (some "m1") (some wAgent) 0]).1 = true ∧
    (totalsVal (runSeq initialState [Obs.tracked wResp1 (some "m1") (some wAgent) 0]).2
        "inputTokens" =
      sumRecField (fun r => r.agent_attributes.prompt_tokens)
        (runSeq initialState [Obs.tracked wResp1 (some "m1") (some wAgent) 0]).1 ∧
    totalsVal (runSeq initialState [Obs.tracked wResp1 (some "m1") (some wAgent) 0]).2
        "outputTokens" =
      sumRecField (fun r => r.agent_attributes.completion_tokens)
        (runSeq initialState [Obs.tracked wResp1 (some "m1") (some wAgent) 0]).1 ∧
    totalsVal (runSeq initialState [Obs.tracked wResp1 (some "m1") (some wAgent) 0]).2
        "totalTokens" =
      sumRecField (fun r => r.agent_attributes.total_tokens)
        (runSeq initialState [Obs.tracked wResp1 (some "m1") (some wAgent) 0]).1 ∧
    totalsVal (runSeq initialState [Obs.tracked wResp1 (some "m1") (some wAgent) 0]).2
        "cycles" =
      sumRecField (fun r => r.debug_new_cycles)
        (runSeq initialState [Obs.tracked wResp1 (some "m1") (some wAgent) 0]).1 ∧
    totalsVal (runSeq initialState [Obs.tracked wResp1 (some "m1") (some wAgent) 0]).2
        "latencyMs" =
      sumRecField (fun r => r.total_duration_ms)
        (runSeq initialState [Obs.tracked wResp1 (some "m1") (some wAgent) 0]).1) :=
  ⟨by decide,
    claim_C6_session_totals [Obs.tracked wResp1 (some "m1") (some wAgent) 0] (by decide)⟩

/-- Counterexample for C6 as stated: a single ephemeral observation
(companion entry point) returns a record whose total-token delta is 10,
yet the session totals remain 0 — the totals do not equal the sum over all
records returned in the sequence. -/
theorem claim_C6_counterexample :
    totalsVal (runSeq initialState
        [Obs.ephemeral { metrics := some wSumEph, text := "t" } (some "m") 0]).2
      "totalTokens" = 0 ∧
    sumAllRecField (fun r => r.total_tokens.total_tokens)
      (runSeq initialState
        [Obs.ephemeral { metrics := some wSumEph, text := "t" } (some "m") 0]).1 = 10 ∧
    (0 : Int) ≠ 10 := by
  exact ⟨by decide, by decide, by decide⟩

end TraceUtils
